import Mathlib

/-!
Verification development for the elemental-overload roguelike core
(src/src/systems/AbilitySystem.ts, PassiveItemSystem.ts, WaveSystem.ts,
ConductorSystem.ts, src/src/entities/Enemy.ts).

Conventions of the shallow embedding:
* JavaScript `number` arithmetic is modelled by exact rationals (`ℚ`);
  `Math.floor` becomes `Int.floor`.
* TypeScript `Map` objects keyed by id are modelled as insertion-ordered
  association lists; `Map.get` is `List.find?` on the key, `Map.has` is
  `List.any` on the key, and in-place mutation of a looked-up entry is
  `updateInstance` (updates the first entry with the key, as a `Map` does).
* The `Set` of banished ids is a list, queried only through `contains`.
* Presentation-only fields (name, description, icon, rarity) carry no logic
  and are omitted from the embedded records.
* JS truthiness tests on optional fields (`def.evolvesFrom && ...`) are made
  explicit: a string is truthy iff nonempty, a number iff nonzero, an
  array/object iff present.
-/

namespace Roguelike

/-- Embeds `baseStats` record of an `AbilityDefinition` (AbilitySystem.ts). -/
structure BaseStats where
  damage : ℚ
  cooldown : ℚ
  projectileCount : Option ℕ
  speed : Option ℚ
deriving DecidableEq, Repr

/-- Embeds `AbilityDefinition` (AbilitySystem.ts); presentation fields omitted. -/
structure AbilityDefinition where
  id : String
  elementType : String
  maxLevel : ℕ
  baseStats : BaseStats
  isDerived : Bool
  requiredElements : Option (List String)
  isEvolved : Bool
  evolvesFrom : Option String
  requiredItem : Option String
  requiredItemLevel : Option ℕ
deriving DecidableEq, Repr

/-- Embeds `AbilityInstance` (AbilitySystem.ts). -/
structure AbilityInstance where
  definition : AbilityDefinition
  level : ℕ
  lastCastTime : ℚ
deriving DecidableEq, Repr

/-- Mutable per-run state of `AbilitySystem`: the `equippedAbilities` map
(insertion-ordered) and the `banishedAbilities` set. -/
structure AbilitySystemState where
  equippedAbilities : List AbilityInstance
  banishedAbilities : List String
deriving DecidableEq, Repr

/-- JS truthiness of an optional string field: present and nonempty. -/
def strTruthy : Option String → Bool
  | some s => !(s == "")
  | none => false

/-- JS truthiness of an optional numeric field: present and nonzero. -/
def natTruthy : Option ℕ → Bool
  | some n => !(n == 0)
  | none => false

-- The ability catalog built by `initializeAbilities` (AbilitySystem.ts),
-- in insertion order.

/-- Catalog entry `fireball`. -/
def fireballDef : AbilityDefinition :=
  { id := "fireball", elementType := "fire", maxLevel := 5
    baseStats := { damage := 15, cooldown := 1000, projectileCount := some 1, speed := some 350 }
    isDerived := false, requiredElements := none
    isEvolved := false, evolvesFrom := none, requiredItem := none, requiredItemLevel := none }

/-- Catalog entry `frostbolt`. -/
def frostboltDef : AbilityDefinition :=
  { id := "frostbolt", elementType := "frost", maxLevel := 5
    baseStats := { damage := 10, cooldown := 1200, projectileCount := some 1, speed := some 300 }
    isDerived := false, requiredElements := none
    isEvolved := false, evolvesFrom := none, requiredItem := none, requiredItemLevel := none }

/-- Catalog entry `lightning`. -/
def lightningDef : AbilityDefinition :=
  { id := "lightning", elementType := "lightning", maxLevel := 5
    baseStats := { damage := 12, cooldown := 800, projectileCount := some 1, speed := some 450 }
    isDerived := false, requiredElements := none
    isEvolved := false, evolvesFrom := none, requiredItem := none, requiredItemLevel := none }

/-- Catalog entry `earthspear`. -/
def earthspearDef : AbilityDefinition :=
  { id := "earthspear", elementType := "earth", maxLevel := 5
    baseStats := { damage := 20, cooldown := 1500, projectileCount := some 1, speed := some 250 }
    isDerived := false, requiredElements := none
    isEvolved := false, evolvesFrom := none, requiredItem := none, requiredItemLevel := none }

/-- Catalog entry `firestorm`. -/
def firestormDef : AbilityDefinition :=
  { id := "firestorm", elementType := "fire", maxLevel := 3
    baseStats := { damage := 12, cooldown := 2000, projectileCount := some 5, speed := some 350 }
    isDerived := false, requiredElements := none
    isEvolved := false, evolvesFrom := none, requiredItem := none, requiredItemLevel := none }

/-- Catalog entry `frostnova`. -/
def frostnovaDef : AbilityDefinition :=
  { id := "frostnova", elementType := "frost", maxLevel := 3
    baseStats := { damage := 8, cooldown := 2500, projectileCount := some 8, speed := some 300 }
    isDerived := false, requiredElements := none
    isEvolved := false, evolvesFrom := none, requiredItem := none, requiredItemLevel := none }

/-- Catalog entry `lava` (derived, fire+earth). -/
def lavaDef : AbilityDefinition :=
  { id := "lava", elementType := "lava", maxLevel := 5
    baseStats := { damage := 25, cooldown := 2000, projectileCount := some 1, speed := some 200 }
    isDerived := true, requiredElements := some ["fire", "earth"]
    isEvolved := false, evolvesFrom := none, requiredItem := none, requiredItemLevel := none }

/-- Catalog entry `plasma` (derived, fire+lightning). -/
def plasmaDef : AbilityDefinition :=
  { id := "plasma", elementType := "plasma", maxLevel := 5
    baseStats := { damage := 30, cooldown := 1800, projectileCount := some 1, speed := some 500 }
    isDerived := true, requiredElements := some ["fire", "lightning"]
    isEvolved := false, evolvesFrom := none, requiredItem := none, requiredItemLevel := none }

/-- Catalog entry `crystal` (derived, frost+earth). -/
def crystalDef : AbilityDefinition :=
  { id := "crystal", elementType := "crystal", maxLevel := 5
    baseStats := { damage := 22, cooldown := 1600, projectileCount := some 3, speed := some 350 }
    isDerived := true, requiredElements := some ["frost", "earth"]
    isEvolved := false, evolvesFrom := none, requiredItem := none, requiredItemLevel := none }

/-- Catalog entry `superconductor` (derived, frost+lightning). -/
def superconductorDef : AbilityDefinition :=
  { id := "superconductor", elementType := "superconductor", maxLevel := 5
    baseStats := { damage := 18, cooldown := 2200, projectileCount := some 1, speed := some 400 }
    isDerived := true, requiredElements := some ["frost", "lightning"]
    isEvolved := false, evolvesFrom := none, requiredItem := none, requiredItemLevel := none }

/-- Catalog entry `blizzard` (derived, fire+frost). -/
def blizzardDef : AbilityDefinition :=
  { id := "blizzard", elementType := "blizzard", maxLevel := 5
    baseStats := { damage := 20, cooldown := 2400, projectileCount := some 6, speed := some 280 }
    isDerived := true, requiredElements := some ["fire", "frost"]
    isEvolved := false, evolvesFrom := none, requiredItem := none, requiredItemLevel := none }

/-- Catalog entry `storm` (derived, lightning+earth). -/
def stormDef : AbilityDefinition :=
  { id := "storm", elementType := "storm", maxLevel := 5
    baseStats := { damage := 28, cooldown := 1900, projectileCount := some 4, speed := some 380 }
    isDerived := true, requiredElements := some ["lightning", "earth"]
    isEvolved := false, evolvesFrom := none, requiredItem := none, requiredItemLevel := none }

/-- Catalog entry `volcanic_eruption` (evolved from `lava`). -/
def volcanicEruptionDef : AbilityDefinition :=
  { id := "volcanic_eruption", elementType := "lava", maxLevel := 1
    baseStats := { damage := 50, cooldown := 5000, projectileCount := some 1, speed := some 0 }
    isDerived := false, requiredElements := none
    isEvolved := true, evolvesFrom := some "lava"
    requiredItem := some "tome_of_ages", requiredItemLevel := some 5 }

/-- Catalog entry `supernova` (evolved from `plasma`). -/
def supernovaDef : AbilityDefinition :=
  { id := "supernova", elementType := "plasma", maxLevel := 1
    baseStats := { damage := 100, cooldown := 8000, projectileCount := some 1, speed := some 0 }
    isDerived := false, requiredElements := none
    isEvolved := true, evolvesFrom := some "plasma"
    requiredItem := some "elemental_resonance", requiredItemLevel := some 5 }

/-- Catalog entry `eternal_freeze` (evolved from `crystal`). -/
def eternalFreezeDef : AbilityDefinition :=
  { id := "eternal_freeze", elementType := "crystal", maxLevel := 1
    baseStats := { damage := 60, cooldown := 6000, projectileCount := some 5, speed := some 400 }
    isDerived := false, requiredElements := none
    isEvolved := true, evolvesFrom := some "crystal"
    requiredItem := some "area_expansion", requiredItemLevel := some 5 }

/-- Embeds `allAbilities`, in the insertion order of `initializeAbilities`. -/
def allAbilitiesList : List AbilityDefinition :=
  [fireballDef, frostboltDef, lightningDef, earthspearDef, firestormDef, frostnovaDef,
   lavaDef, plasmaDef, crystalDef, superconductorDef, blizzardDef, stormDef,
   volcanicEruptionDef, supernovaDef, eternalFreezeDef]

/-- Embeds `allAbilities.get id` (a `Map` keyed by `id`). -/
def findDefinition (abilityId : String) : Option AbilityDefinition :=
  allAbilitiesList.find? (fun d => d.id == abilityId)

/-- Embeds `equippedAbilities.get id`. -/
def findInstance (s : AbilitySystemState) (abilityId : String) : Option AbilityInstance :=
  s.equippedAbilities.find? (fun a => a.definition.id == abilityId)

/-- Embeds `equippedAbilities.has id`. -/
def equippedHas (s : AbilitySystemState) (abilityId : String) : Bool :=
  s.equippedAbilities.any (fun a => a.definition.id == abilityId)

/-- In-place mutation of the (single) map entry for `abilityId`. -/
def updateInstance (abilityId : String) (f : AbilityInstance → AbilityInstance) :
    List AbilityInstance → List AbilityInstance
  | [] => []
  | a :: rest =>
    if a.definition.id == abilityId then f a :: rest
    else a :: updateInstance abilityId f rest

/-- Embeds `upgradeAbility` (AbilitySystem.ts): fails when not equipped or at max
level, otherwise increments the instance's level in place. -/
def upgradeAbility (abilityId : String) (s : AbilitySystemState) :
    Bool × AbilitySystemState :=
  match findInstance s abilityId with
  | none => (false, s)
  | some ability =>
    if ability.definition.maxLevel ≤ ability.level then (false, s)
    else
      (true, { s with equippedAbilities :=
        updateInstance abilityId (fun a => { a with level := a.level + 1 }) s.equippedAbilities })

/-- Embeds `equipAbility` (AbilitySystem.ts): unknown id fails; an already-equipped
id delegates to `upgradeAbility`; otherwise a fresh level-1 instance with
`lastCastTime = 0` is appended to the equipped map. -/
def equipAbility (abilityId : String) (s : AbilitySystemState) :
    Bool × AbilitySystemState :=
  match findDefinition abilityId with
  | none => (false, s)
  | some definition =>
    if equippedHas s abilityId then upgradeAbility abilityId s
    else
      (true, { s with equippedAbilities :=
        s.equippedAbilities ++ [{ definition := definition, level := 1, lastCastTime := 0 }] })

/-- Embeds `banishAbility` (AbilitySystem.ts): adds the id to the banished set. -/
def banishAbility (abilityId : String) (s : AbilitySystemState) : AbilitySystemState :=
  { s with banishedAbilities := s.banishedAbilities ++ [abilityId] }

/-- Embeds `getEquippedAbilities` (AbilitySystem.ts). -/
def getEquippedAbilities (s : AbilitySystemState) : List AbilityInstance :=
  s.equippedAbilities

-- Passive item system (PassiveItemSystem.ts); only the parts the ability
-- system reads (`getItemLevel`) are needed, so effects are omitted.

/-- Embeds `PassiveItemDefinition` (PassiveItemSystem.ts); presentation and effect
fields carry no logic used here and are omitted. -/
structure PassiveItemDefinition where
  id : String
  maxLevel : ℕ
deriving DecidableEq, Repr

/-- Embeds `PassiveItemInstance` (PassiveItemSystem.ts). -/
structure PassiveItemInstance where
  definition : PassiveItemDefinition
  level : ℕ
deriving DecidableEq, Repr

/-- Mutable state of `PassiveItemSystem`: the `equippedItems` map. -/
structure PassiveItemState where
  equippedItems : List PassiveItemInstance
deriving DecidableEq, Repr

/-- Embeds `getItemLevel` (PassiveItemSystem.ts): equipped level, or 0. -/
def getItemLevel (p : PassiveItemState) (itemId : String) : ℕ :=
  match p.equippedItems.find? (fun i => i.definition.id == itemId) with
  | some item => item.level
  | none => 0

-- Option pool construction (AbilitySystem.ts, checkDerivedAbilities /
-- checkEvolutions / getRandomAbilityOptions).

/-- The set of element types of equipped non-derived abilities collected by
`checkDerivedAbilities`. -/
def equippedElements (s : AbilitySystemState) : List String :=
  (s.equippedAbilities.filter (fun a => !a.definition.isDerived)).map
    (fun a => a.definition.elementType)

/-- Filter predicate of `checkDerivedAbilities` for one catalog entry. -/
def derivedGuard (s : AbilitySystemState) (d : AbilityDefinition) : Bool :=
  d.isDerived && d.requiredElements.isSome &&
  !equippedHas s d.id &&
  (d.requiredElements.getD []).all (fun element => (equippedElements s).contains element)

/-- Embeds `checkDerivedAbilities` (AbilitySystem.ts). -/
def checkDerivedAbilities (s : AbilitySystemState) : List AbilityDefinition :=
  allAbilitiesList.filter (derivedGuard s)

/-- Filter predicate of `checkEvolutions` for one catalog entry. -/
def evolutionGuard (s : AbilitySystemState) (p : PassiveItemState)
    (d : AbilityDefinition) : Bool :=
  d.isEvolved && strTruthy d.evolvesFrom && strTruthy d.requiredItem &&
  natTruthy d.requiredItemLevel &&
  !equippedHas s d.id &&
  (match findInstance s (d.evolvesFrom.getD "") with
   | none => false
   | some baseAbility => !(baseAbility.level < baseAbility.definition.maxLevel)) &&
  !(getItemLevel p (d.requiredItem.getD "") < d.requiredItemLevel.getD 0)

/-- Embeds `checkEvolutions` (AbilitySystem.ts). -/
def checkEvolutions (s : AbilitySystemState) (p : PassiveItemState) :
    List AbilityDefinition :=
  allAbilitiesList.filter (evolutionGuard s p)

/-- The four-tier candidate pool built inside `getRandomAbilityOptions`
(evolutions > derived > fresh > upgradeable); the passive item system is an
optional argument there, and evolutions are only checked when it is given. -/
def abilityPool (s : AbilitySystemState) (passiveItemSystem : Option PassiveItemState) :
    List AbilityDefinition :=
  let evolutions := match passiveItemSystem with
    | some p => checkEvolutions s p
    | none => []
  let priorityEvolutions := evolutions.filter (fun d => !s.banishedAbilities.contains d.id)
  let derivedAbilities := checkDerivedAbilities s
  let priorityDerived := derivedAbilities.filter (fun d => !s.banishedAbilities.contains d.id)
  let unequipped := allAbilitiesList.filter (fun d =>
    !equippedHas s d.id && !s.banishedAbilities.contains d.id &&
    !d.isDerived && !d.isEvolved)
  let upgradeable := allAbilitiesList.filter (fun d =>
    !s.banishedAbilities.contains d.id && !d.isEvolved &&
    (match findInstance s d.id with
     | some equipped => equipped.level < d.maxLevel
     | none => false))
  priorityEvolutions ++ priorityDerived ++ unequipped ++ upgradeable

/-- The sampling loop of `getRandomAbilityOptions`: while
`i < min count pool.length` (the bound shrinks as the pool does), draw the
element at the index returned by `Phaser.Math.Between(0, pool.length - 1)`
— modelled by an arbitrary generator clamped into that range — remove it,
and append it to the result. -/
def drawGo (rand : ℕ → ℕ → ℕ) (count : ℕ) :
    ℕ → ℕ → List AbilityDefinition → List AbilityDefinition
  | 0, _, _ => []
  | fuel + 1, i, pool =>
    if i < min count pool.length then
      match pool.get? (min (rand i (pool.length - 1)) (pool.length - 1)) with
      | some d =>
        d :: drawGo rand count fuel (i + 1)
          (pool.eraseIdx (min (rand i (pool.length - 1)) (pool.length - 1)))
      | none => []
    else []

/-- Entry point of the sampling loop; the fuel `pool.length` bounds the
iteration count (the loop body always shrinks the pool by one, so this
bound is never reached while the loop guard holds). -/
def drawLoop (rand : ℕ → ℕ → ℕ) (count : ℕ) (i : ℕ) (pool : List AbilityDefinition) :
    List AbilityDefinition :=
  drawGo rand count pool.length i pool

/-- Embeds `getRandomAbilityOptions` (AbilitySystem.ts), with the random source
made explicit. -/
def getRandomAbilityOptions (rand : ℕ → ℕ → ℕ) (count : ℕ)
    (passiveItemSystem : Option PassiveItemState) (s : AbilitySystemState) :
    List AbilityDefinition :=
  drawLoop rand count 0 (abilityPool s passiveItemSystem)

-- Cast engine (AbilitySystem.ts: getAbilityDamage / getAbilityCooldown /
-- getAbilityProjectileCount / castAbility / tryTriggerAbility). Casting is
-- modelled by the list of requests emitted to the player/scene.

/-- Embeds `getAbilityDamage`: `Math.floor(baseDamage * (1 + (level - 1) * 0.2))`. -/
def getAbilityDamage (ability : AbilityInstance) : ℤ :=
  Int.floor (ability.definition.baseStats.damage * (1 + ((ability.level : ℚ) - 1) * 0.2))

/-- Embeds `getAbilityCooldown`: `Math.floor(baseCooldown * (1 - (level - 1) * 0.05))`. -/
def getAbilityCooldown (ability : AbilityInstance) : ℤ :=
  Int.floor (ability.definition.baseStats.cooldown * (1 - ((ability.level : ℚ) - 1) * 0.05))

/-- Embeds `getAbilityProjectileCount`: `projectileCount || 1`, plus
`Math.floor((level - 1) / 2)` extra for `firestorm` and `frostnova`. -/
def getAbilityProjectileCount (ability : AbilityInstance) : ℤ :=
  let baseCount : ℤ :=
    match ability.definition.baseStats.projectileCount with
    | some n => if n = 0 then 1 else (n : ℤ)
    | none => 1
  if ability.definition.id == "firestorm" || ability.definition.id == "frostnova" then
    baseCount + Int.floor (((ability.level : ℚ) - 1) / 2)
  else baseCount

/-- A request emitted while casting: either the single-shot `requestAttack`
event or one ring-burst projectile carrying an element tag and damage. -/
inductive CastEvent where
  | attackRequest
  | projectile (elementType : String) (damage : ℤ)
deriving DecidableEq, Repr

/-- Embeds `castAbility` (AbilitySystem.ts): one `requestAttack` when the
projectile count is 1, a ring burst of that many projectiles when it is at
most 8, and nothing otherwise. -/
def castAbility (ability : AbilityInstance) : List CastEvent :=
  let projectileCount := getAbilityProjectileCount ability
  let damage := getAbilityDamage ability
  if projectileCount = 1 then [CastEvent.attackRequest]
  else if projectileCount ≤ 8 then
    List.replicate projectileCount.toNat
      (CastEvent.projectile ability.definition.elementType damage)
  else []

/-- Embeds `tryTriggerAbility` (AbilitySystem.ts): when the cooldown has elapsed,
cast and stamp `lastCastTime` with the current time. -/
def tryTriggerAbility (ability : AbilityInstance) (time : ℚ) :
    List CastEvent × AbilityInstance :=
  let cooldown := getAbilityCooldown ability
  if time - ability.lastCastTime < (cooldown : ℚ) then ([], ability)
  else (castAbility ability, { ability with lastCastTime := time })

-- Enemy damage resolution (Enemy.ts, takeDamage).

/-- Embeds `elementResistances.get e`, the resistance table being a map from
element tags to multipliers. -/
def resistanceLookup (resistances : List (String × ℚ)) (elementType : String) : Option ℚ :=
  (resistances.find? (fun kv => kv.1 == elementType)).map (fun kv => kv.2)

/-- The final damage computed by `Enemy.takeDamage`: the raw amount unless
the element is not the sentinel `"none"` and has a table entry, in which
case the amount is scaled by that entry. -/
def finalDamage (amount : ℚ) (elementType : String) (resistances : List (String × ℚ)) : ℚ :=
  if elementType != "none" then
    match resistanceLookup resistances elementType with
    | some resistance => amount * resistance
    | none => amount
  else amount

/-- Embeds `Enemy.takeDamage` effect on `currentHealth`. -/
def takeDamage (currentHealth : ℚ) (amount : ℚ) (elementType : String)
    (resistances : List (String × ℚ)) : ℚ :=
  currentHealth - finalDamage amount elementType resistances

-- Wave director (WaveSystem.ts).

/-- One `enemies` entry of a `WaveConfig`. -/
structure EnemySpawn where
  type : String
  count : ℕ
  interval : Option ℚ
deriving DecidableEq, Repr

/-- Embeds `WaveConfig` (WaveSystem.ts). -/
structure WaveConfig where
  time : ℚ
  enemies : List EnemySpawn
  message : Option String
  isBoss : Option Bool
deriving DecidableEq, Repr

/-- Mutable state of `WaveSystem`: the timeline, the cursor and the
accumulated session time (seconds). -/
structure WaveState where
  waves : List WaveConfig
  currentWaveIndex : ℕ
  gameTime : ℚ
deriving DecidableEq, Repr

/-- Embeds `WaveSystem.update(deltaTime)`: accumulate `deltaTime / 1000` seconds;
if the wave at the cursor exists and its trigger time has been reached,
fire it (returned as the first component) and advance the cursor by one. -/
def waveUpdate (deltaTime : ℚ) (s : WaveState) : Option WaveConfig × WaveState :=
  let t := s.gameTime + deltaTime / 1000
  match s.waves.get? s.currentWaveIndex with
  | some nextWave =>
    if nextWave.time ≤ t then
      (some nextWave,
       { waves := s.waves, currentWaveIndex := s.currentWaveIndex + 1, gameTime := t })
    else (none, { s with gameTime := t })
  | none => (none, { s with gameTime := t })

/-- Run a sequence of `update` calls, collecting the indices of the waves
fired (each fired wave is reported at the cursor value it was fired from). -/
def runWaves (deltas : List ℚ) (s : WaveState) : WaveState × List ℕ :=
  match deltas with
  | [] => (s, [])
  | d :: rest =>
    let step := waveUpdate d s
    let tail := runWaves rest step.2
    (tail.1, (match step.1 with
              | some _ => [s.currentWaveIndex]
              | none => []) ++ tail.2)

-- Conductor dynamic difficulty (ConductorSystem.ts).

/-- The difficulty factors of `ConductorSystem` (the kill/damage
accumulators feed `PlayerPerformance` and are quantified over instead). -/
structure ConductorState where
  difficultyMultiplier : ℚ
  harassmentFactor : ℚ
  resistanceFactor : ℚ
deriving DecidableEq, Repr

/-- The performance snapshot read by `adjustDifficulty`. -/
structure PlayerPerformance where
  healthPercentage : ℚ
  killRate : ℚ
  damageReceived : ℚ
deriving DecidableEq, Repr

/-- Embeds `isPerformingWell` condition of `adjustDifficulty`. -/
def isPerformingWell (perf : PlayerPerformance) : Bool :=
  (70 < perf.healthPercentage) && (5 < perf.killRate) && (perf.damageReceived < 50)

/-- Embeds `isStruggling` condition of `adjustDifficulty`. -/
def isStruggling (perf : PlayerPerformance) : Bool :=
  (perf.healthPercentage < 40) || (perf.killRate < 2) || (100 < perf.damageReceived)

/-- Embeds `adjustDifficulty` (ConductorSystem.ts): raise the three factors by 0.1
(clamped above) when performing well, lower them by 0.1 (clamped below)
when struggling, and otherwise decay them toward 1.0. -/
def adjustDifficulty (perf : PlayerPerformance) (s : ConductorState) : ConductorState :=
  if isPerformingWell perf then
    { difficultyMultiplier := min 1.3 (s.difficultyMultiplier + 0.1)
      harassmentFactor := min 1.5 (s.harassmentFactor + 0.1)
      resistanceFactor := min 1.5 (s.resistanceFactor + 0.1) }
  else if isStruggling perf then
    { difficultyMultiplier := max 0.7 (s.difficultyMultiplier - 0.1)
      harassmentFactor := max 0.5 (s.harassmentFactor - 0.1)
      resistanceFactor := max 0.5 (s.resistanceFactor - 0.1) }
  else
    { difficultyMultiplier := s.difficultyMultiplier * 0.95 + 1.0 * 0.05
      harassmentFactor := s.harassmentFactor * 0.95 + 1.0 * 0.05
      resistanceFactor := s.resistanceFactor * 0.95 + 1.0 * 0.05 }

/-- The initial factor values of `ConductorSystem`. -/
def initialConductorState : ConductorState :=
  { difficultyMultiplier := 1.0, harassmentFactor := 1.0, resistanceFactor := 1.0 }

/-- Embeds `ConductorSystem.reset`: all three factors return to 1.0. -/
def conductorReset (_s : ConductorState) : ConductorState := initialConductorState

/-- The conductor states reachable from construction by any sequence of
evaluations (with arbitrary performance snapshots) and resets. -/
inductive ConductorReachable : ConductorState → Prop where
  | init : ConductorReachable initialConductorState
  | eval (perf : PlayerPerformance) {s : ConductorState} :
      ConductorReachable s → ConductorReachable (adjustDifficulty perf s)
  | reset {s : ConductorState} :
      ConductorReachable s → ConductorReachable (conductorReset s)

/-- Embeds the wave timeline built by `initializeWaves` (WaveSystem.ts). -/
def initialWaves : List WaveConfig :=
  [{ time := 0, enemies := [{ type := "swarmling", count := 3, interval := some 2000 }],
     message := some "游戏开始！", isBoss := none },
   { time := 180, enemies := [{ type := "swarmling", count := 30, interval := some 100 }],
     message := some "虫群来袭！", isBoss := none },
   { time := 300,
     enemies := [{ type := "swarmling", count := 10, interval := some 500 },
                 { type := "frostbat", count := 5, interval := some 1000 }],
     message := some "冰霜蝙蝠出现了！", isBoss := none },
   { time := 420,
     enemies := [{ type := "swarmling", count := 15, interval := some 300 },
                 { type := "frostbat", count := 8, interval := some 800 },
                 { type := "rockgolem", count := 3, interval := some 2000 }],
     message := some "混合部队来袭！", isBoss := none },
   { time := 600, enemies := [{ type := "boss_lava_turtle", count := 1, interval := none }],
     message := some "⚠️ 首领出现：熔岩巨龟！", isBoss := some true },
   { time := 720,
     enemies := [{ type := "rockgolem", count := 10, interval := some 500 },
                 { type := "frostbat", count := 10, interval := some 500 }],
     message := some "重装部队来袭！", isBoss := none },
   { time := 900,
     enemies := [{ type := "elite_swarmling", count := 5, interval := some 1000 },
                 { type := "elite_frostbat", count := 3, interval := some 1500 },
                 { type := "elite_rockgolem", count := 2, interval := some 2000 }],
     message := some "⚠️ 精英部队出现！", isBoss := none },
   { time := 1080,
     enemies := [{ type := "swarmling", count := 50, interval := some 100 },
                 { type := "frostbat", count := 20, interval := some 200 },
                 { type := "rockgolem", count := 10, interval := some 500 }],
     message := some "⚠️ 终焉之潮即将到来！", isBoss := none },
   { time := 1200, enemies := [{ type := "boss_chaos_alchemist", count := 1, interval := none }],
     message := some "⚠️⚠️⚠️ 最终首领：炼金之混沌！", isBoss := some true }]

-- Public operations of the ability system, for statements about whole runs.

/-- One public mutating call on the ability system. -/
inductive AbilityOp where
  | equipOp (id : String)
  | upgradeOp (id : String)
  | banishOp (id : String)
deriving DecidableEq, Repr

/-- Applies one public call (dropping the returned Bool, as callers may). -/
def applyOp : AbilityOp → AbilitySystemState → AbilitySystemState
  | .equipOp id, s => (equipAbility id s).2
  | .upgradeOp id, s => (upgradeAbility id s).2
  | .banishOp id, s => banishAbility id s

/-- Applies a sequence of public calls, oldest first. -/
def applyOps (ops : List AbilityOp) (s : AbilitySystemState) : AbilitySystemState :=
  ops.foldl (fun acc op => applyOp op acc) s

/-- The ability-system state at the start of a run. -/
def emptyAbilityState : AbilitySystemState :=
  { equippedAbilities := [], banishedAbilities := [] }

-- Concrete states used to instantiate the claims.

/-- Embeds the `tome_of_ages` passive item definition (PassiveItemSystem.ts). -/
def tomeOfAgesDef : PassiveItemDefinition := { id := "tome_of_ages", maxLevel := 5 }

/-- A passive-item state with only `tome_of_ages` equipped, at a given level. -/
def tomeAt (level : ℕ) : PassiveItemState :=
  { equippedItems := [{ definition := tomeOfAgesDef, level := level }] }

/-- A state with only `lava` equipped, at its max level 5. -/
def lavaMaxState : AbilitySystemState :=
  { equippedAbilities := [{ definition := lavaDef, level := 5, lastCastTime := 0 }]
    banishedAbilities := [] }

/-- The state reached by equipping `fireball`, `earthspear` and then `lava`
(each offered legitimately: the first two as fresh picks, `lava` as a
derived combination once fire and earth are both covered). -/
def lavaEquippedState : AbilitySystemState :=
  { equippedAbilities :=
      [{ definition := fireballDef, level := 1, lastCastTime := 0 },
       { definition := earthspearDef, level := 1, lastCastTime := 0 },
       { definition := lavaDef, level := 1, lastCastTime := 0 }]
    banishedAbilities := [] }

/-- The state reached by calling `equipAbility("lava")` on a fresh system
(equipping checks no prerequisites). -/
def lavaOnlyState : AbilitySystemState :=
  { equippedAbilities := [{ definition := lavaDef, level := 1, lastCastTime := 0 }]
    banishedAbilities := [] }

/-- A `frostnova` instance at level 3. -/
def frostnovaAt3 (lastCastTime : ℚ) : AbilityInstance :=
  { definition := frostnovaDef, level := 3, lastCastTime := lastCastTime }

/-- The state after `equipAbility("fireball")` and then n upgrade calls. -/
def fireballUpgradeRun : ℕ → AbilitySystemState
  | 0 => (equipAbility "fireball" emptyAbilityState).2
  | n + 1 => (upgradeAbility "fireball" (fireballUpgradeRun n)).2

-- Theorems.

/-- With the thresholds of `adjustDifficulty`, a struggling evaluation can
never also classify as performing well. -/
theorem struggling_not_well (perf : PlayerPerformance) (h : isStruggling perf = true) :
    isPerformingWell perf = false := by
  have hs : (perf.healthPercentage < 40 ∨ perf.killRate < 2) ∨ 100 < perf.damageReceived := by
    simpa [isStruggling] using h
  rw [Bool.eq_false_iff]
  intro hw
  have hw' : (70 < perf.healthPercentage ∧ 5 < perf.killRate) ∧ perf.damageReceived < 50 := by
    simpa [isPerformingWell] using hw
  obtain ⟨⟨h1, h2⟩, h3⟩ := hw'
  rcases hs with hA | hB
  · rcases hA with h' | h'
    · linarith
    · linarith
  · linarith

/-- A struggling evaluation takes exactly the clamped-decrement branch. -/
theorem adjustDifficulty_struggling (perf : PlayerPerformance) (s : ConductorState)
    (h : isStruggling perf = true) :
    adjustDifficulty perf s =
      { difficultyMultiplier := max 0.7 (s.difficultyMultiplier - 0.1)
        harassmentFactor := max 0.5 (s.harassmentFactor - 0.1)
        resistanceFactor := max 0.5 (s.resistanceFactor - 0.1) } := by
  simp [adjustDifficulty, struggling_not_well perf h, h]

/-- C4: every evaluation classified as struggling sets
`difficultyMultiplier` to `max 0.7 (previous - 0.1)` (and the harassment
and resistance factors to `max 0.5 (previous - 0.1)`); from the initial
1.0, consecutive struggling evaluations give 0.9, 0.8, 0.7 and stay at 0.7
on a fourth. -/
theorem conductor_struggling_decrements (s : ConductorState) (perf : PlayerPerformance)
    (h : isStruggling perf = true) :
    adjustDifficulty perf s =
      { difficultyMultiplier := max 0.7 (s.difficultyMultiplier - 0.1)
        harassmentFactor := max 0.5 (s.harassmentFactor - 0.1)
        resistanceFactor := max 0.5 (s.resistanceFactor - 0.1) } ∧
    (adjustDifficulty perf initialConductorState).difficultyMultiplier = 0.9 ∧
    (adjustDifficulty perf (adjustDifficulty perf initialConductorState)).difficultyMultiplier
      = 0.8 ∧
    (adjustDifficulty perf (adjustDifficulty perf
        (adjustDifficulty perf initialConductorState))).difficultyMultiplier = 0.7 ∧
    (adjustDifficulty perf (adjustDifficulty perf (adjustDifficulty perf
        (adjustDifficulty perf initialConductorState)))).difficultyMultiplier = 0.7 := by
  have hstep : ∀ t, adjustDifficulty perf t =
      { difficultyMultiplier := max 0.7 (t.difficultyMultiplier - 0.1)
        harassmentFactor := max 0.5 (t.harassmentFactor - 0.1)
        resistanceFactor := max 0.5 (t.resistanceFactor - 0.1) } :=
    fun t => adjustDifficulty_struggling perf t h
  refine ⟨hstep s, ?_, ?_, ?_, ?_⟩ <;>
    simp only [hstep, initialConductorState] <;> norm_num [max_def]

/-- Witness for C4 at a concrete struggling snapshot. -/
theorem conductor_struggling_decrements_witness :
    isStruggling { healthPercentage := 0, killRate := 0, damageReceived := 0 } = true ∧
    (adjustDifficulty { healthPercentage := 0, killRate := 0, damageReceived := 0 }
      initialConductorState).difficultyMultiplier = 0.9 :=
  ⟨by decide,
   (conductor_struggling_decrements initialConductorState
     { healthPercentage := 0, killRate := 0, damageReceived := 0 } (by decide)).2.1⟩

/-- C5: from construction, any sequence of evaluations (well, struggling or
decay branch) and resets keeps `difficultyMultiplier` in [0.7, 1.3] and the
harassment and resistance factors in [0.5, 1.5]. -/
theorem conductor_factors_bounded (s : ConductorState) (h : ConductorReachable s) :
    0.7 ≤ s.difficultyMultiplier ∧ s.difficultyMultiplier ≤ 1.3 ∧
    0.5 ≤ s.harassmentFactor ∧ s.harassmentFactor ≤ 1.5 ∧
    0.5 ≤ s.resistanceFactor ∧ s.resistanceFactor ≤ 1.5 := by
  induction h with
  | init => refine ⟨?_, ?_, ?_, ?_, ?_, ?_⟩ <;> norm_num [initialConductorState]
  | reset _ _ => refine ⟨?_, ?_, ?_, ?_, ?_, ?_⟩ <;>
      norm_num [conductorReset, initialConductorState]
  | eval perf _ ih =>
    obtain ⟨a1, a2, b1, b2, c1, c2⟩ := ih
    unfold adjustDifficulty
    split
    · exact ⟨le_min (by norm_num) (by linarith), min_le_left _ _,
             le_min (by norm_num) (by linarith), min_le_left _ _,
             le_min (by norm_num) (by linarith), min_le_left _ _⟩
    · split
      · exact ⟨le_max_left _ _, max_le (by norm_num) (by linarith),
               le_max_left _ _, max_le (by norm_num) (by linarith),
               le_max_left _ _, max_le (by norm_num) (by linarith)⟩
      · exact ⟨by linarith, by linarith, by linarith,
               by linarith, by linarith, by linarith⟩

/-- Witness for C5 at the initial state. -/
theorem conductor_factors_bounded_witness :
    0.7 ≤ initialConductorState.difficultyMultiplier ∧
    initialConductorState.difficultyMultiplier ≤ 1.3 ∧
    0.5 ≤ initialConductorState.harassmentFactor ∧
    initialConductorState.harassmentFactor ≤ 1.5 ∧
    0.5 ≤ initialConductorState.resistanceFactor ∧
    initialConductorState.resistanceFactor ≤ 1.5 :=
  conductor_factors_bounded initialConductorState ConductorReachable.init

/-- C7: the amount subtracted from `currentHealth` by `takeDamage` is the
raw amount when the element is the sentinel `"none"` or absent from the
resistance table, and the amount scaled by the table entry otherwise;
`finalDamage 10 "fire" [("fire", 0.2)] = 2` and
`finalDamage 10 "none" [] = 10`. -/
theorem resolve_damage_spec (health amount : ℚ) (elementType : String)
    (resistances : List (String × ℚ)) :
    takeDamage health amount elementType resistances
      = health - finalDamage amount elementType resistances ∧
    (elementType = "none" → finalDamage amount elementType resistances = amount) ∧
    (resistanceLookup resistances elementType = none →
      finalDamage amount elementType resistances = amount) ∧
    (∀ r : ℚ, elementType ≠ "none" → resistanceLookup resistances elementType = some r →
      finalDamage amount elementType resistances = amount * r) ∧
    finalDamage 10 "fire" [("fire", 0.2)] = 2 ∧
    finalDamage 10 "none" [] = 10 := by
  refine ⟨rfl, ?_, ?_, ?_, ?_, ?_⟩
  · intro h; subst h; simp [finalDamage]
  · intro h
    simp only [finalDamage, h]
    split <;> rfl
  · intro r hne hsome
    simp [finalDamage, hsome, hne]
  · norm_num [finalDamage, resistanceLookup, List.find?]
    decide
  · simp [finalDamage]

/-- Witness for C7 on concrete tables. -/
theorem resolve_damage_spec_witness :
    finalDamage 10 "fire" [("fire", 0.2)] = 10 * 0.2 ∧
    takeDamage 50 10 "none" [] = 50 - finalDamage 10 "none" [] :=
  ⟨(resolve_damage_spec 0 10 "fire" [("fire", 0.2)]).2.2.2.1 0.2 (by decide) rfl,
   (resolve_damage_spec 50 10 "none" []).1⟩

/-- C8: `getAbilityDamage` is `floor(baseDamage * (1 + 0.2 * (level - 1)))`,
every ring-burst projectile emitted by `castAbility` carries exactly that
value, and base 15 at level 3 gives 21. -/
theorem ability_damage_formula :
    (∀ a : AbilityInstance,
      getAbilityDamage a =
        Int.floor (a.definition.baseStats.damage * (1 + 0.2 * ((a.level : ℚ) - 1)))) ∧
    (∀ (a : AbilityInstance) (e : String) (dmg : ℤ),
      CastEvent.projectile e dmg ∈ castAbility a →
      dmg = Int.floor (a.definition.baseStats.damage * (1 + 0.2 * ((a.level : ℚ) - 1)))) ∧
    getAbilityDamage { definition := fireballDef, level := 3, lastCastTime := 0 } = 21 := by
  have hform : ∀ a : AbilityInstance,
      getAbilityDamage a =
        Int.floor (a.definition.baseStats.damage * (1 + 0.2 * ((a.level : ℚ) - 1))) := by
    intro a
    unfold getAbilityDamage
    congr 1
    ring
  refine ⟨hform, ?_, ?_⟩
  · intro a e dmg hmem
    simp only [castAbility] at hmem
    split at hmem
    · simp at hmem
    · split at hmem
      · have := List.eq_of_mem_replicate hmem
        cases this
        exact hform a
      · simp at hmem
  · norm_num [getAbilityDamage, fireballDef]

/-- Witness for C8: a concrete ring-burst projectile (crystal, level 2). -/
theorem ability_damage_formula_witness :
    getAbilityDamage { definition := crystalDef, level := 2, lastCastTime := 0 } =
      Int.floor (crystalDef.baseStats.damage * (1 + 0.2 * (((2 : ℕ) : ℚ) - 1))) :=
  ability_damage_formula.2.1 { definition := crystalDef, level := 2, lastCastTime := 0 }
    "crystal" _
    (by simp [castAbility, getAbilityProjectileCount, crystalDef, List.mem_replicate])

/-- C10: `frostnova` at level 3 has projectile count 9; any count above 8
falls through both firing branches of `castAbility`, so a due tick emits no
projectile and no attack request, yet still stamps `lastCastTime` with the
tick time. -/
theorem frostnova_level3_dead_cast :
    getAbilityProjectileCount (frostnovaAt3 0) = 9 ∧
    (∀ a : AbilityInstance, 8 < getAbilityProjectileCount a → castAbility a = []) ∧
    (∀ time lastCastTime : ℚ,
      (getAbilityCooldown (frostnovaAt3 lastCastTime) : ℚ) ≤ time - lastCastTime →
      tryTriggerAbility (frostnovaAt3 lastCastTime) time = ([], frostnovaAt3 time)) := by
  have hcount : ∀ q : ℚ, getAbilityProjectileCount (frostnovaAt3 q) = 9 := by
    intro q
    norm_num [getAbilityProjectileCount, frostnovaAt3, frostnovaDef]
  have hdead : ∀ a : AbilityInstance, 8 < getAbilityProjectileCount a → castAbility a = [] := by
    intro a hgt
    simp only [castAbility]
    rw [if_neg (by omega), if_neg (by omega)]
  refine ⟨hcount 0, hdead, ?_⟩
  intro time lastCastTime hdue
  have hlast : (frostnovaAt3 lastCastTime).lastCastTime = lastCastTime := rfl
  simp only [tryTriggerAbility]
  rw [if_neg (by rw [hlast]; linarith)]
  rw [hdead _ (by rw [hcount]; norm_num)]
  rfl

/-- Witness for C10 at tick time 2250 (exactly the level-3 cooldown). -/
theorem frostnova_level3_dead_cast_witness :
    tryTriggerAbility (frostnovaAt3 0) 2250 = ([], frostnovaAt3 2250) :=
  frostnova_level3_dead_cast.2.2 2250 0
    (by norm_num [getAbilityCooldown, frostnovaAt3, frostnovaDef])

/-- When the cursor wave exists and is due, `update` fires it and advances
the cursor by exactly one. -/
theorem waveUpdate_fires (s : WaveState) (d : ℚ) (w : WaveConfig)
    (hget : s.waves.get? s.currentWaveIndex = some w)
    (hdue : w.time ≤ s.gameTime + d / 1000) :
    waveUpdate d s =
      (some w, { waves := s.waves, currentWaveIndex := s.currentWaveIndex + 1,
                 gameTime := s.gameTime + d / 1000 }) := by
  simp only [waveUpdate, hget, if_pos hdue]

/-- When no cursor wave is due (cursor out of range, or trigger time still
ahead), `update` fires nothing and only accumulates time. -/
theorem waveUpdate_no_fire (s : WaveState) (d : ℚ)
    (h : ∀ w, s.waves.get? s.currentWaveIndex = some w → s.gameTime + d / 1000 < w.time) :
    waveUpdate d s = (none, { s with gameTime := s.gameTime + d / 1000 }) := by
  cases hget : s.waves.get? s.currentWaveIndex with
  | none => simp only [waveUpdate, hget]
  | some w => simp only [waveUpdate, hget, if_neg (not_le.2 (h w hget))]

/-- One `update` keeps the timeline, and moves the cursor by one exactly
when it fired. -/
theorem waveUpdate_effects (d : ℚ) (s : WaveState) :
    (waveUpdate d s).2.waves = s.waves ∧
    ((waveUpdate d s).1.isSome = true →
      (waveUpdate d s).2.currentWaveIndex = s.currentWaveIndex + 1) ∧
    ((waveUpdate d s).1 = none →
      (waveUpdate d s).2.currentWaveIndex = s.currentWaveIndex) := by
  cases hget : s.waves.get? s.currentWaveIndex with
  | none =>
    simp only [waveUpdate, hget]
    simp
  | some w =>
    simp only [waveUpdate, hget]
    split <;> simp

/-- Unfolding equation for one step of `runWaves`. -/
theorem runWaves_cons (d : ℚ) (rest : List ℚ) (s : WaveState) :
    runWaves (d :: rest) s =
      ((runWaves rest (waveUpdate d s).2).1,
       (match (waveUpdate d s).1 with
        | some _ => [s.currentWaveIndex]
        | none => []) ++ (runWaves rest (waveUpdate d s).2).2) := rfl

/-- Across any run, the fired indices form a contiguous block starting at
the initial cursor. -/
theorem runWaves_fired_range (deltas : List ℚ) (s : WaveState) :
    ∃ k, (runWaves deltas s).2 = List.range' s.currentWaveIndex k := by
  induction deltas generalizing s with
  | nil => exact ⟨0, rfl⟩
  | cons d rest ih =>
    obtain ⟨k, hk⟩ := ih (waveUpdate d s).2
    cases hfired : (waveUpdate d s).1 with
    | some w =>
      have hidx := ((waveUpdate_effects d s).2.1 (by simp [hfired]))
      refine ⟨k + 1, ?_⟩
      rw [runWaves_cons, hfired]
      simp only [hk, hidx, List.range'_succ]
      rfl
    | none =>
      have hidx := (waveUpdate_effects d s).2.2 hfired
      refine ⟨k, ?_⟩
      rw [runWaves_cons, hfired]
      simp only [hk, hidx]
      rfl

/-- Once the cursor has passed the end of the timeline, no run ever fires
another wave. -/
theorem runWaves_terminal (deltas : List ℚ) (s : WaveState)
    (h : s.waves.length ≤ s.currentWaveIndex) : (runWaves deltas s).2 = [] := by
  induction deltas generalizing s with
  | nil => rfl
  | cons d rest ih =>
    have hget : s.waves.get? s.currentWaveIndex = none := List.get?_eq_none.2 h
    have hupd : waveUpdate d s = (none, { s with gameTime := s.gameTime + d / 1000 }) := by
      simp only [waveUpdate, hget]
    rw [runWaves_cons, hupd]
    simpa using ih { s with gameTime := s.gameTime + d / 1000 } h

/-- C3: a single `update` call fires exactly the cursor wave (and advances
the cursor by one) when its trigger time has been reached (`>=`, so exact
arrival fires), and otherwise fires nothing with the cursor unchanged;
across any run the fired indices are strictly increasing, so no index fires
twice and at most one wave fires per call, and a cursor at the end of the
timeline never fires again. -/
theorem wave_director_spec :
    (∀ (s : WaveState) (d : ℚ) (w : WaveConfig),
      s.waves.get? s.currentWaveIndex = some w → w.time ≤ s.gameTime + d / 1000 →
      waveUpdate d s = (some w,
        { waves := s.waves, currentWaveIndex := s.currentWaveIndex + 1,
          gameTime := s.gameTime + d / 1000 })) ∧
    (∀ (s : WaveState) (d : ℚ),
      (∀ w, s.waves.get? s.currentWaveIndex = some w → s.gameTime + d / 1000 < w.time) →
      waveUpdate d s = (none, { s with gameTime := s.gameTime + d / 1000 })) ∧
    (∀ (deltas : List ℚ) (s : WaveState), ((runWaves deltas s).2).Pairwise (· < ·)) ∧
    (∀ (deltas : List ℚ) (s : WaveState), s.currentWaveIndex = s.waves.length →
      (runWaves deltas s).2 = []) := by
  refine ⟨waveUpdate_fires, waveUpdate_no_fire, ?_, ?_⟩
  · intro deltas s
    obtain ⟨k, hk⟩ := runWaves_fired_range deltas s
    rw [hk]
    exact List.pairwise_lt_range' _ _
  · intro deltas s h
    exact runWaves_terminal deltas s (le_of_eq h.symm)

/-- Witness for C3 on the shipped timeline: at accumulated time exactly
180s the t=180 wave (index 1) fires and the cursor moves to 2; at 179.9s it
does not fire. -/
theorem wave_director_spec_witness :
    waveUpdate 80000 { waves := initialWaves, currentWaveIndex := 1, gameTime := 100 } =
      (some { time := 180,
              enemies := [{ type := "swarmling", count := 30, interval := some 100 }],
              message := some "虫群来袭！", isBoss := none },
       { waves := initialWaves, currentWaveIndex := 1 + 1, gameTime := 100 + 80000 / 1000 }) ∧
    waveUpdate 179900 { waves := initialWaves, currentWaveIndex := 1, gameTime := 0 } =
      (none, { waves := initialWaves, currentWaveIndex := 1, gameTime := 0 + 179900 / 1000 }) :=
  ⟨wave_director_spec.1 { waves := initialWaves, currentWaveIndex := 1, gameTime := 100 }
      80000 _ rfl (by norm_num),
   wave_director_spec.2.1 { waves := initialWaves, currentWaveIndex := 1, gameTime := 0 }
      179900 (by intro w hw; cases hw; norm_num)⟩

/-- C6: equipping an unknown id fails with no state change; equipping an
already-equipped (catalog) id is exactly an upgrade; upgrading an
unequipped id fails with no state change; upgrading an instance at its
definition's max level fails with no state change; and after equipping
`fireball` and five upgrade calls, the sixth call fails and the level
stays 5. -/
theorem equip_upgrade_failures :
    (∀ (s : AbilitySystemState) (abilityId : String), findDefinition abilityId = none →
        equipAbility abilityId s = (false, s)) ∧
    (∀ (s : AbilitySystemState) (abilityId : String) (d : AbilityDefinition),
        findDefinition abilityId = some d → equippedHas s abilityId = true →
        equipAbility abilityId s = upgradeAbility abilityId s) ∧
    (∀ (s : AbilitySystemState) (abilityId : String), findInstance s abilityId = none →
        upgradeAbility abilityId s = (false, s)) ∧
    (∀ (s : AbilitySystemState) (abilityId : String) (a : AbilityInstance),
        findInstance s abilityId = some a → a.level = a.definition.maxLevel →
        upgradeAbility abilityId s = (false, s)) ∧
    upgradeAbility "fireball" (fireballUpgradeRun 5) = (false, fireballUpgradeRun 5) ∧
    (findInstance (fireballUpgradeRun 5) "fireball").map (fun a => a.level) = some 5 := by
  refine ⟨?_, ?_, ?_, ?_, by decide, by decide⟩
  · intro s abilityId h
    simp [equipAbility, h]
  · intro s abilityId d hd he
    simp [equipAbility, hd, he]
  · intro s abilityId h
    simp [upgradeAbility, h]
  · intro s abilityId a ha hl
    simp [upgradeAbility, ha, hl]

/-- Witness for C6 at concrete ids and states. -/
theorem equip_upgrade_failures_witness :
    equipAbility "bogus" emptyAbilityState = (false, emptyAbilityState) ∧
    equipAbility "fireball" (fireballUpgradeRun 0) = upgradeAbility "fireball" (fireballUpgradeRun 0) ∧
    upgradeAbility "lava" emptyAbilityState = (false, emptyAbilityState) ∧
    upgradeAbility "fireball" (fireballUpgradeRun 5) = (false, fireballUpgradeRun 5) :=
  ⟨equip_upgrade_failures.1 emptyAbilityState "bogus" (by decide),
   equip_upgrade_failures.2.1 (fireballUpgradeRun 0) "fireball" fireballDef (by decide) (by decide),
   equip_upgrade_failures.2.2.1 emptyAbilityState "lava" (by decide),
   equip_upgrade_failures.2.2.2.2.1⟩

/-- Upgrading never touches the banished set. -/
theorem upgrade_banished_eq (abilityId : String) (s : AbilitySystemState) :
    (upgradeAbility abilityId s).2.banishedAbilities = s.banishedAbilities := by
  unfold upgradeAbility
  split
  · rfl
  · split <;> rfl

/-- Equipping never touches the banished set. -/
theorem equip_banished_eq (abilityId : String) (s : AbilitySystemState) :
    (equipAbility abilityId s).2.banishedAbilities = s.banishedAbilities := by
  unfold equipAbility
  split
  · rfl
  · split
    · exact upgrade_banished_eq abilityId s
    · rfl

/-- No public call removes an id from the banished set. -/
theorem applyOp_banished_mono (op : AbilityOp) (s : AbilitySystemState) (x : String)
    (h : x ∈ s.banishedAbilities) : x ∈ (applyOp op s).banishedAbilities := by
  cases op with
  | equipOp abilityId =>
    show x ∈ (equipAbility abilityId s).2.banishedAbilities
    rw [equip_banished_eq]
    exact h
  | upgradeOp abilityId =>
    show x ∈ (upgradeAbility abilityId s).2.banishedAbilities
    rw [upgrade_banished_eq]
    exact h
  | banishOp abilityId =>
    exact List.mem_append_left _ h

/-- No sequence of public calls removes an id from the banished set. -/
theorem applyOps_banished_mono (ops : List AbilityOp) (s : AbilitySystemState) (x : String)
    (h : x ∈ s.banishedAbilities) : x ∈ (applyOps ops s).banishedAbilities := by
  induction ops generalizing s with
  | nil => exact h
  | cons op rest ih => exact ih (applyOp op s) (applyOp_banished_mono op s x h)

/-- Every tier of the option pool filters out banished ids. -/
theorem pool_not_banished (s : AbilitySystemState) (p : Option PassiveItemState)
    (d : AbilityDefinition) (h : d ∈ abilityPool s p) :
    s.banishedAbilities.contains d.id = false := by
  simp only [abilityPool, List.mem_append, List.mem_filter, Bool.and_eq_true,
    Bool.not_eq_true'] at h
  tauto

/-- Every drawn option comes from the pool it was sampled from. -/
theorem drawGo_subset (rand : ℕ → ℕ → ℕ) (count : ℕ) :
    ∀ (fuel i : ℕ) (pool : List AbilityDefinition),
      ∀ d ∈ drawGo rand count fuel i pool, d ∈ pool := by
  intro fuel
  induction fuel with
  | zero => intro i pool d hd; cases hd
  | succ n ih =>
    intro i pool d hd
    rw [drawGo] at hd
    split at hd
    · split at hd
      · rcases List.mem_cons.1 hd with rfl | hd'
        · exact List.get?_mem (by assumption)
        · exact List.eraseIdx_subset _ _ (ih _ _ d hd')
      · cases hd
    · cases hd

/-- Every returned level-up option is a member of the candidate pool. -/
theorem options_subset_pool (rand : ℕ → ℕ → ℕ) (count : ℕ)
    (p : Option PassiveItemState) (s : AbilitySystemState) :
    ∀ d ∈ getRandomAbilityOptions rand count p s, d ∈ abilityPool s p :=
  fun d hd => drawGo_subset rand count _ 0 _ d hd

/-- C9: `banishAbility` leaves the equipped map untouched (so an equipped
instance keeps its level and `lastCastTime` and is still returned by
`getEquippedAbilities`), and after banishing an id, no sequence of further
equip/upgrade/banish calls can make that id appear in any tier of any
subsequent `getRandomAbilityOptions` result. -/
theorem banish_excludes_forever (abilityId : String) (s : AbilitySystemState)
    (ops : List AbilityOp) (rand : ℕ → ℕ → ℕ) (count : ℕ)
    (psys : Option PassiveItemState) :
    (banishAbility abilityId s).equippedAbilities = s.equippedAbilities ∧
    getEquippedAbilities (banishAbility abilityId s) = getEquippedAbilities s ∧
    (∀ d ∈ getRandomAbilityOptions rand count psys (applyOps ops (banishAbility abilityId s)),
      d.id ≠ abilityId) := by
  refine ⟨rfl, rfl, ?_⟩
  intro d hd hdid
  have hpool := options_subset_pool rand count psys _ d hd
  have hnb := pool_not_banished _ _ _ hpool
  have hmem : abilityId ∈ (applyOps ops (banishAbility abilityId s)).banishedAbilities :=
    applyOps_banished_mono ops _ _ (List.mem_append_right _ (List.mem_singleton_self _))
  rw [hdid] at hnb
  have h2 : (applyOps ops (banishAbility abilityId s)).banishedAbilities.contains abilityId
      = true := List.elem_eq_true_of_mem hmem
  rw [h2] at hnb
  cases hnb

/-- Witness for C9: the first drawn option after banishing `frostbolt` is
`fireball`, whose id differs from the banished one. -/
theorem banish_excludes_forever_witness :
    fireballDef.id ≠ "frostbolt" :=
  (banish_excludes_forever "frostbolt" emptyAbilityState [] (fun _ _ => 0) 1 none).2.2
    fireballDef (by decide)

/-- An id reported unequipped by `has` is also missed by `get`. -/
theorem findInstance_eq_none (s : AbilitySystemState) (abilityId : String)
    (h : equippedHas s abilityId = false) : findInstance s abilityId = none := by
  unfold equippedHas at h
  unfold findInstance
  rw [List.find?_eq_none]
  intro a ha
  have h' := (List.any_eq_false.1 h) a ha
  simpa using h'

/-- An evolved (non-derived) catalog entry is in the pool exactly when it
passes the evolution guard and is not banished: the other three tiers
exclude evolved entries. -/
theorem evolved_pool_mem (s : AbilitySystemState) (p : PassiveItemState)
    (d : AbilityDefinition) (hmem : d ∈ allAbilitiesList) (hev : d.isEvolved = true)
    (hder : d.isDerived = false) :
    d ∈ abilityPool s (some p) ↔
      evolutionGuard s p d = true ∧ s.banishedAbilities.contains d.id = false := by
  simp only [abilityPool, checkEvolutions, checkDerivedAbilities, derivedGuard,
    List.mem_append, List.mem_filter, Bool.and_eq_true, Bool.not_eq_true',
    hev, hder, Bool.false_and, Bool.and_false, Bool.true_and]
  tauto

/-- A derived (non-evolved) catalog entry is in the pool exactly when it is
not banished and either enters via the derived tier (unequipped with all
required elements covered) or via the upgrade tier (equipped below max
level). -/
theorem derived_pool_mem_iff (s : AbilitySystemState) (p : PassiveItemState)
    (d : AbilityDefinition) (hmem : d ∈ allAbilitiesList) (hder : d.isDerived = true)
    (hev : d.isEvolved = false) (hsome : d.requiredElements.isSome = true) :
    d ∈ abilityPool s (some p) ↔
      s.banishedAbilities.contains d.id = false ∧
      ((equippedHas s d.id = false ∧
        ∀ e ∈ d.requiredElements.getD [], (equippedElements s).contains e = true) ∨
       (∃ a, findInstance s d.id = some a ∧ a.level < d.maxLevel)) := by
  cases hfi : findInstance s d.id with
  | none =>
    simp only [abilityPool, checkEvolutions, checkDerivedAbilities, derivedGuard,
      evolutionGuard, List.mem_append, List.mem_filter, Bool.and_eq_true, Bool.not_eq_true',
      hder, hev, hsome, hfi, Bool.false_and, Bool.true_and, Bool.and_false,
      decide_eq_true_eq, List.all_eq_true]
    simp
    tauto
  | some a =>
    simp only [abilityPool, checkEvolutions, checkDerivedAbilities, derivedGuard,
      evolutionGuard, List.mem_append, List.mem_filter, Bool.and_eq_true, Bool.not_eq_true',
      hder, hev, hsome, hfi, Bool.false_and, Bool.true_and, Bool.and_false,
      decide_eq_true_eq, List.all_eq_true]
    simp
    tauto

/-- Characterization of the evolution guard for an entry with all evolution
fields present (and truthy): not equipped, base equipped at exactly its max
level (under the level invariant), and item level at least the threshold. -/
theorem evolutionGuard_iff (s : AbilitySystemState) (p : PassiveItemState)
    (d : AbilityDefinition) (bid iid : String) (ilvl : ℕ)
    (hef : d.evolvesFrom = some bid) (hbid : ¬bid = "")
    (hri : d.requiredItem = some iid) (hiid : ¬iid = "")
    (hrl : d.requiredItemLevel = some ilvl) (hlvl : ¬ilvl = 0)
    (hev : d.isEvolved = true)
    (hwf : ∀ a ∈ s.equippedAbilities, a.level ≤ a.definition.maxLevel) :
    (evolutionGuard s p d = true ↔
      equippedHas s d.id = false ∧
      (∃ base, findInstance s bid = some base ∧ base.level = base.definition.maxLevel) ∧
      ilvl ≤ getItemLevel p iid) := by
  cases hfi : findInstance s bid with
  | none =>
    simp [evolutionGuard, hev, hef, hri, hrl, strTruthy, natTruthy, hbid, hiid, hlvl, hfi]
  | some base =>
    have hle : base.level ≤ base.definition.maxLevel :=
      hwf base (List.mem_of_find?_eq_some hfi)
    simp only [evolutionGuard, hev, hef, hri, hrl, strTruthy, natTruthy, hfi,
      Option.getD_some, Bool.and_eq_true, Bool.not_eq_true', decide_eq_true_eq,
      decide_eq_false_iff_not, not_lt, beq_eq_false_iff_ne, ne_eq, hbid, hiid, hlvl,
      not_false_eq_true, and_true, true_and, Bool.true_and]
    constructor
    · rintro ⟨⟨hhas, hge⟩, hitem⟩
      exact ⟨hhas, ⟨base, rfl, le_antisymm hle hge⟩, hitem⟩
    · rintro ⟨hhas, ⟨base', hb', heq⟩, hitem⟩
      cases hb'
      exact ⟨⟨hhas, le_of_eq heq.symm⟩, hitem⟩

/-- C1: an evolved catalog entry is in the level-up option pool iff it is
not equipped, not banished, its `evolvesFrom` base is equipped at exactly
its max level, and its required item is at least at `requiredItemLevel`
(states obey the level-cap invariant); with `lava` equipped at max level,
`volcanic_eruption` is in the pool at `tome_of_ages` level 5 and not at
level 4. -/
theorem evolution_pool_iff (s : AbilitySystemState) (p : PassiveItemState)
    (d : AbilityDefinition) (hmem : d ∈ allAbilitiesList) (hev : d.isEvolved = true)
    (hwf : ∀ a ∈ s.equippedAbilities, a.level ≤ a.definition.maxLevel) :
    (d ∈ abilityPool s (some p) ↔
      equippedHas s d.id = false ∧
      s.banishedAbilities.contains d.id = false ∧
      (∃ base, findInstance s (d.evolvesFrom.getD "") = some base ∧
        base.level = base.definition.maxLevel) ∧
      d.requiredItemLevel.getD 0 ≤ getItemLevel p (d.requiredItem.getD "")) ∧
    volcanicEruptionDef ∈ abilityPool lavaMaxState (some (tomeAt 5)) ∧
    volcanicEruptionDef ∉ abilityPool lavaMaxState (some (tomeAt 4)) := by
  refine ⟨?_, by decide, by decide⟩
  have hmem' : d = fireballDef ∨ d = frostboltDef ∨ d = lightningDef ∨ d = earthspearDef ∨
      d = firestormDef ∨ d = frostnovaDef ∨ d = lavaDef ∨ d = plasmaDef ∨ d = crystalDef ∨
      d = superconductorDef ∨ d = blizzardDef ∨ d = stormDef ∨ d = volcanicEruptionDef ∨
      d = supernovaDef ∨ d = eternalFreezeDef := by
    simpa [allAbilitiesList] using hmem
  obtain rfl|rfl|rfl|rfl|rfl|rfl|rfl|rfl|rfl|rfl|rfl|rfl|rfl|rfl|rfl := hmem'
  case _ => exact absurd hev (by decide)
  case _ => exact absurd hev (by decide)
  case _ => exact absurd hev (by decide)
  case _ => exact absurd hev (by decide)
  case _ => exact absurd hev (by decide)
  case _ => exact absurd hev (by decide)
  case _ => exact absurd hev (by decide)
  case _ => exact absurd hev (by decide)
  case _ => exact absurd hev (by decide)
  case _ => exact absurd hev (by decide)
  case _ => exact absurd hev (by decide)
  case _ => exact absurd hev (by decide)
  case _ =>
    rw [evolved_pool_mem s p volcanicEruptionDef hmem hev (by decide),
        evolutionGuard_iff s p volcanicEruptionDef "lava" "tome_of_ages" 5
          rfl (by decide) rfl (by decide) rfl (by decide) hev hwf]
    constructor
    · rintro ⟨⟨h1, h2, h3⟩, h4⟩
      exact ⟨h1, h4, h2, h3⟩
    · rintro ⟨h1, h4, h2, h3⟩
      exact ⟨⟨h1, h2, h3⟩, h4⟩
  case _ =>
    rw [evolved_pool_mem s p supernovaDef hmem hev (by decide),
        evolutionGuard_iff s p supernovaDef "plasma" "elemental_resonance" 5
          rfl (by decide) rfl (by decide) rfl (by decide) hev hwf]
    constructor
    · rintro ⟨⟨h1, h2, h3⟩, h4⟩
      exact ⟨h1, h4, h2, h3⟩
    · rintro ⟨h1, h4, h2, h3⟩
      exact ⟨⟨h1, h2, h3⟩, h4⟩
  case _ =>
    rw [evolved_pool_mem s p eternalFreezeDef hmem hev (by decide),
        evolutionGuard_iff s p eternalFreezeDef "crystal" "area_expansion" 5
          rfl (by decide) rfl (by decide) rfl (by decide) hev hwf]
    constructor
    · rintro ⟨⟨h1, h2, h3⟩, h4⟩
      exact ⟨h1, h4, h2, h3⟩
    · rintro ⟨h1, h4, h2, h3⟩
      exact ⟨⟨h1, h2, h3⟩, h4⟩

/-- Witness for C1: the pool membership criterion instantiated for
`volcanic_eruption` with `lava` equipped at max level and the tome at 5. -/
theorem evolution_pool_iff_witness :
    volcanicEruptionDef ∈ abilityPool lavaMaxState (some (tomeAt 5)) ↔
      equippedHas lavaMaxState volcanicEruptionDef.id = false ∧
      lavaMaxState.banishedAbilities.contains volcanicEruptionDef.id = false ∧
      (∃ base, findInstance lavaMaxState (volcanicEruptionDef.evolvesFrom.getD "")
        = some base ∧ base.level = base.definition.maxLevel) ∧
      volcanicEruptionDef.requiredItemLevel.getD 0 ≤
        getItemLevel (tomeAt 5) (volcanicEruptionDef.requiredItem.getD "") :=
  (evolution_pool_iff lavaMaxState (tomeAt 5) volcanicEruptionDef (by decide) (by decide)
    (by decide)).1

/-- Counterexample to C2 as stated: an equipped derived ability re-enters
the option pool via the upgrade tier, so pool membership does not imply
"not already equipped". `lavaEquippedState` is reached by three legitimate
equips (fireball, earthspear, then lava); `lavaOnlyState` (one direct
`equipAbility("lava")` call) even has `lava` in the pool with no element
coverage at all. -/
theorem derived_pool_counterexample :
    applyOps [.equipOp "fireball", .equipOp "earthspear", .equipOp "lava"] emptyAbilityState
      = lavaEquippedState ∧
    equippedHas lavaEquippedState "lava" = true ∧
    lavaDef ∈ abilityPool lavaEquippedState (some (tomeAt 0)) ∧
    lavaDef ∈ getRandomAbilityOptions (fun _ _ => 6) 1 (some (tomeAt 0)) lavaEquippedState ∧
    (equipAbility "lava" emptyAbilityState).2 = lavaOnlyState ∧
    equippedHas lavaOnlyState "lava" = true ∧
    equippedElements lavaOnlyState = [] ∧
    lavaDef ∈ abilityPool lavaOnlyState (some (tomeAt 0)) := by
  refine ⟨by decide, by decide, by decide, by decide, by decide, by decide, by decide, by decide⟩

/-- C2 (amended): a derived catalog entry is in the pool iff it is not
banished and either (not equipped and every required element is covered by
an equipped non-derived ability) or (equipped below its max level, the
upgrade tier); consequently, restricted to unequipped derived entries the
original criterion holds: in the pool iff not banished and all required
elements covered. -/
theorem derived_pool_characterization (s : AbilitySystemState) (p : PassiveItemState)
    (d : AbilityDefinition) (hmem : d ∈ allAbilitiesList) (hder : d.isDerived = true) :
    (d ∈ abilityPool s (some p) ↔
      s.banishedAbilities.contains d.id = false ∧
      ((equippedHas s d.id = false ∧
        ∀ e ∈ d.requiredElements.getD [], (equippedElements s).contains e = true) ∨
       (∃ a, findInstance s d.id = some a ∧ a.level < d.maxLevel))) ∧
    (equippedHas s d.id = false →
      (d ∈ abilityPool s (some p) ↔
        s.banishedAbilities.contains d.id = false ∧
        ∀ e ∈ d.requiredElements.getD [], (equippedElements s).contains e = true)) := by
  have hiff : d ∈ abilityPool s (some p) ↔
      s.banishedAbilities.contains d.id = false ∧
      ((equippedHas s d.id = false ∧
        ∀ e ∈ d.requiredElements.getD [], (equippedElements s).contains e = true) ∨
       (∃ a, findInstance s d.id = some a ∧ a.level < d.maxLevel)) := by
    have hmem' : d = fireballDef ∨ d = frostboltDef ∨ d = lightningDef ∨ d = earthspearDef ∨
        d = firestormDef ∨ d = frostnovaDef ∨ d = lavaDef ∨ d = plasmaDef ∨ d = crystalDef ∨
        d = superconductorDef ∨ d = blizzardDef ∨ d = stormDef ∨ d = volcanicEruptionDef ∨
        d = supernovaDef ∨ d = eternalFreezeDef := by
      simpa [allAbilitiesList] using hmem
    obtain rfl|rfl|rfl|rfl|rfl|rfl|rfl|rfl|rfl|rfl|rfl|rfl|rfl|rfl|rfl := hmem'
    case _ => exact absurd hder (by decide)
    case _ => exact absurd hder (by decide)
    case _ => exact absurd hder (by decide)
    case _ => exact absurd hder (by decide)
    case _ => exact absurd hder (by decide)
    case _ => exact absurd hder (by decide)
    case _ => exact derived_pool_mem_iff s p lavaDef hmem hder (by decide) (by decide)
    case _ => exact derived_pool_mem_iff s p plasmaDef hmem hder (by decide) (by decide)
    case _ => exact derived_pool_mem_iff s p crystalDef hmem hder (by decide) (by decide)
    case _ => exact derived_pool_mem_iff s p superconductorDef hmem hder (by decide) (by decide)
    case _ => exact derived_pool_mem_iff s p blizzardDef hmem hder (by decide) (by decide)
    case _ => exact derived_pool_mem_iff s p stormDef hmem hder (by decide) (by decide)
    case _ => exact absurd hder (by decide)
    case _ => exact absurd hder (by decide)
    case _ => exact absurd hder (by decide)
  refine ⟨hiff, ?_⟩
  intro hhas
  rw [hiff]
  rw [findInstance_eq_none s d.id hhas]
  simp [hhas]

/-- Witness for C2 (amended): the characterization instantiated for `lava`
in the state where it is equipped alongside fireball and earthspear. -/
theorem derived_pool_characterization_witness :
    lavaDef ∈ abilityPool lavaEquippedState (some (tomeAt 0)) ↔
      lavaEquippedState.banishedAbilities.contains lavaDef.id = false ∧
      ((equippedHas lavaEquippedState lavaDef.id = false ∧
        ∀ e ∈ lavaDef.requiredElements.getD [],
          (equippedElements lavaEquippedState).contains e = true) ∨
       (∃ a, findInstance lavaEquippedState lavaDef.id = some a ∧ a.level < lavaDef.maxLevel)) :=
  (derived_pool_characterization lavaEquippedState (tomeAt 0) lavaDef
    (by decide) (by decide)).1

end Roguelike
